import Mathlib

/-!
Verification of the operation-execution and process-lifecycle core of the
godot-mcp server against its specification.  The TypeScript sources under
`src/` are shallowly embedded: pure logic becomes Lean functions, effects
(filesystem probes, child-process spawning, the operation executor seen from a
handler) become explicit function parameters, thrown exceptions become an
`Except` error channel, and promise rejection values are modelled by the
`Thrown` type below.
-/

namespace GodotMcp

/-- A text content block of a tool response (types: element of
`ToolResponse.content`; the `type` tag is the constant string `"text"` and is
therefore not represented). -/
structure TextContent where
  text : String
deriving Repr, DecidableEq

/-- Uniform response envelope (types: `ToolResponse`).  `isError` is an
optional field in the source; an absent flag means `false`, so it is modelled
as a `Bool` with default `false`. -/
structure ToolResponse where
  content : List TextContent
  isError : Bool := false
deriving Repr, DecidableEq

/-- Modelled from the spec: the Error Translator implementation
(`utils/error-handler.ts`, class `ErrorHandler`, method `createErrorResponse`)
is not among the provided sources, only its interface is.  Per the spec it
converts a failure into a `ToolResponse` with the error flag set, carrying the
message plus the suggested remediations as text content. -/
def createErrorResponse (message : String) (possibleSolutions : List String) : ToolResponse :=
  { content := { text := message } :: possibleSolutions.map (fun s => { text := s }),
    isError := true }

/-- A value thrown by a handler or rejected through a promise: either a real
`Error` carrying a message, or a non-`Error` value (the run handler rejects
with a plain response object, for instance). -/
inductive Thrown where
  | err (msg : String)
  | nonError
deriving Repr, DecidableEq

/-- The message the dispatch boundary derives from a caught value
(`error instanceof Error ? error.message : 'Unknown error'`). -/
def thrownMessage : Thrown → String
  | .err m => m
  | .nonError => "Unknown error"

/-- Embedding of `PathValidator.validatePath` (utils/path-validator.ts):
returns `false` for the empty string (`!path`) and for any string containing
the two-character sequence `".."` (`path.includes('..')`, i.e. substring
containment), `true` otherwise. -/
def validatePath (path : String) : Bool :=
  if path = "" || decide ("..".data <:+: path.data) then false else true

/-- A JSON value: the shape of a parameter bag (types: `OperationParams` is an
arbitrary key/value object) and of serialized result payloads. -/
inductive JsonValue where
  | str : String → JsonValue
  | num : Int → JsonValue
  | bool : Bool → JsonValue
  | null : JsonValue
  | arr : List JsonValue → JsonValue
  | obj : List (String × JsonValue) → JsonValue
deriving Repr

/-- Hexadecimal digit for JSON `\u` escapes (lower case, as JS produces). -/
def hexDigit (n : Nat) : Char :=
  if n < 10 then Char.ofNat ('0'.toNat + n) else Char.ofNat ('a'.toNat + (n - 10))

/-- Four-digit hexadecimal rendering for JSON `\u` escapes. -/
def hex4 (n : Nat) : String :=
  String.mk [hexDigit ((n / 4096) % 16), hexDigit ((n / 256) % 16),
    hexDigit ((n / 16) % 16), hexDigit (n % 16)]

/-- Escape of one character inside a JSON string literal, as `JSON.stringify`
performs it. -/
def escapeJsonChar (c : Char) : String :=
  if c = '"' then "\\\""
  else if c = '\\' then "\\\\"
  else if c = '\n' then "\\n"
  else if c = '\t' then "\\t"
  else if c = '\r' then "\\r"
  else if c = '\x08' then "\\b"
  else if c = '\x0c' then "\\f"
  else if c.toNat < 32 then "\\u" ++ hex4 c.toNat
  else String.singleton c

/-- A JSON string literal: quotes around the escaped character sequence. -/
def quoteJson (s : String) : String :=
  "\"" ++ String.join (s.data.map escapeJsonChar) ++ "\""

mutual

/-- Compact JSON serialization, the embedding of `JSON.stringify(v)` as used
for the single parameter-bag argument in `executeOperation`. -/
def jsonCompact : JsonValue → String
  | .str s => quoteJson s
  | .num n => toString n
  | .bool b => if b then "true" else "false"
  | .null => "null"
  | .arr xs => "[" ++ String.intercalate "," (jsonCompactList xs) ++ "]"
  | .obj fs => "\x7b" ++ String.intercalate "," (jsonCompactFields fs) ++ "\x7d"

/-- Compact serialization of the elements of a JSON array. -/
def jsonCompactList : List JsonValue → List String
  | [] => []
  | x :: xs => jsonCompact x :: jsonCompactList xs

/-- Compact serialization of the fields of a JSON object. -/
def jsonCompactFields : List (String × JsonValue) → List String
  | [] => []
  | (k, v) :: fs => (quoteJson k ++ ":" ++ jsonCompact v) :: jsonCompactFields fs

end

/-- Indentation padding used by pretty JSON serialization. -/
def indentPad (n : Nat) : String := String.mk (List.replicate n ' ')

mutual

/-- Pretty JSON serialization with two-space indentation, the embedding of
`JSON.stringify(v, null, 2)` used by the debug-output and stop-project
handlers.  The `Nat` argument is the indentation depth of the surrounding
container. -/
def jsonPretty : JsonValue → Nat → String
  | .str s, _ => quoteJson s
  | .num n, _ => toString n
  | .bool b, _ => if b then "true" else "false"
  | .null, _ => "null"
  | .arr [], _ => "[]"
  | .arr (x :: xs), ind =>
      "[\n" ++ String.intercalate ",\n" (jsonPrettyItems (x :: xs) (ind + 2)) ++
        "\n" ++ indentPad ind ++ "]"
  | .obj [], _ => "\x7b\x7d"
  | .obj (f :: fs), ind =>
      "\x7b\n" ++ String.intercalate ",\n" (jsonPrettyFields (f :: fs) (ind + 2)) ++
        "\n" ++ indentPad ind ++ "\x7d"

/-- Pretty serialization of array elements, each on its own indented line. -/
def jsonPrettyItems : List JsonValue → Nat → List String
  | [], _ => []
  | x :: xs, ind => (indentPad ind ++ jsonPretty x ind) :: jsonPrettyItems xs ind

/-- Pretty serialization of object fields, each on its own indented line. -/
def jsonPrettyFields : List (String × JsonValue) → Nat → List String
  | [], _ => []
  | (k, v) :: fs, ind =>
      (indentPad ind ++ quoteJson k ++ ": " ++ jsonPretty v ind) :: jsonPrettyFields fs ind

end

/-- Modelled from the spec: key rewriting of the Parameter Normalizer
(`modules/parameter-mapper.ts`, not among the provided sources).  Per the spec:
insert an underscore before every upper-case letter that follows a lower-case
letter or digit, then lower-case the entire key.  The `Option Char` carries
the previous character of the key. -/
def camelToSnakeAux : Option Char → List Char → List Char
  | _, [] => []
  | prev, c :: rest =>
      (if c.isUpper && (match prev with
          | some p => p.isLower || p.isDigit
          | none => false)
        then ['_', c.toLower] else [c.toLower]) ++ camelToSnakeAux (some c) rest

/-- Modelled from the spec: one key rewritten from the external camel-case
convention to the underscore convention. -/
def camelToSnake (k : String) : String := String.mk (camelToSnakeAux none k.data)

mutual

/-- Modelled from the spec: `ParameterMapperImpl.convertCamelToSnakeCase`
(`modules/parameter-mapper.ts`, not among the provided sources).  Per the
spec: rewrite every key, recurse into nested bags and into bags found inside
sequences, pass scalars through unchanged, preserve sequence order and
count. -/
def convertCamelToSnakeCase : JsonValue → JsonValue
  | .str s => .str s
  | .num n => .num n
  | .bool b => .bool b
  | .null => .null
  | .arr xs => .arr (convertCamelToSnakeCaseList xs)
  | .obj fs => .obj (convertCamelToSnakeCaseFields fs)

/-- Recursive key rewriting inside a JSON array. -/
def convertCamelToSnakeCaseList : List JsonValue → List JsonValue
  | [] => []
  | x :: xs => convertCamelToSnakeCase x :: convertCamelToSnakeCaseList xs

/-- Recursive key rewriting of the fields of a JSON object. -/
def convertCamelToSnakeCaseFields : List (String × JsonValue) → List (String × JsonValue)
  | [] => []
  | (k, v) :: fs => (camelToSnake k, convertCamelToSnakeCase v) :: convertCamelToSnakeCaseFields fs

end

/-- Result of a discrete operation (types: `OperationResult`). -/
structure OperationResult where
  stdout : String
  stderr : String
  exitCode : Int
deriving Repr, DecidableEq

/-- Configuration of `OperationExecutorImpl` (modules/operation-executor.ts):
the fixed operations-script path, the nullable Godot executable path, and the
two diagnostic flags. -/
structure ExecutorConfig where
  operationsScriptPath : String
  godotPath : Option String
  godotDebugMode : Bool := true
  debugMode : Bool := false
deriving Repr, DecidableEq

/-- Exit-code normalization performed by the `close` handler of
`executeOperation`: `code || 0` under JS truthiness, where both `null` and `0`
are falsy. -/
def exitCodeOfClose : Option Int → Int
  | none => 0
  | some c => if c = 0 then 0 else c

/-- Observable behaviour of a spawned child process: it either closes with
accumulated stdout/stderr and a (possibly null) termination code, or emits a
spawn error. -/
inductive ProcBehavior where
  | closes (stdout stderr : String) (code : Option Int)
  | errors (msg : String)
deriving Repr, DecidableEq

/-- A record of the one `spawn` call `executeOperation` makes: the executable
and the argument vector. -/
structure SpawnRecord where
  cmd : String
  args : List String
deriving Repr, DecidableEq

/-- The promise built around the spawned process in `executeOperation`: a
`close` event resolves with the captured output and the normalized exit code,
an `error` event rejects with the underlying OS error. -/
def runSpawned : ProcBehavior → Except Thrown OperationResult
  | .closes out err code => .ok { stdout := out, stderr := err, exitCode := exitCodeOfClose code }
  | .errors m => .error (.err m)

/-- Embedding of `OperationExecutorImpl.executeOperation`
(modules/operation-executor.ts): convert the parameters to snake case, fail
fast with a configuration error when `godotPath` is null, otherwise serialize
the parameters to one JSON string, build the argument vector and spawn.  The
first component records the single `spawn` call made (`none` when no process
was spawned); the second is the settled promise. -/
def executeOperation (cfg : ExecutorConfig) (operation : String) (params : JsonValue)
    (projectPath : String) (behave : ProcBehavior) :
    Option SpawnRecord × Except Thrown OperationResult :=
  let snakeCaseParams := convertCamelToSnakeCase params
  match cfg.godotPath with
  | none => (none, .error (.err "Could not find a valid Godot executable path"))
  | some gp =>
      let paramsJson := jsonCompact snakeCaseParams
      let debugArgs := if cfg.godotDebugMode then ["--debug-godot"] else []
      let args := ["--headless", "--path", projectPath, "--script",
        cfg.operationsScriptPath, operation, paramsJson] ++ debugArgs
      (some { cmd := gp, args := args }, runSpawned behave)

/-- The message a handler-level `catch` derives from a caught value:
`error?.message || 'Unknown error'` — unlike the dispatch boundary this also
replaces an empty message, since the empty string is falsy. -/
def catchMessage : Thrown → String
  | .err m => if m = "" then "Unknown error" else m
  | .nonError => "Unknown error"

/-- JS truthiness of an optional string argument (`args.x` is falsy when the
field is absent or the empty string). -/
def strPresent : Option String → Bool
  | some s => s ≠ ""
  | none => false

/-- Fallback of `x || d` for an optional string under JS truthiness. -/
def orDefault (o : Option String) (d : String) : String :=
  match o with
  | some s => if s = "" then d else s
  | none => d

/-- Line splitting of one data chunk, `data.toString().split('\n')` in the
stdout/stderr handlers of `handleRunProject`: fragments between newline
characters, a trailing empty fragment when the chunk ends in a newline, and
one single fragment (the whole chunk) when it holds no newline. -/
def splitLines : List Char → List (List Char)
  | [] => [[]]
  | c :: rest =>
      if c = '\n' then [] :: splitLines rest
      else
        match splitLines rest with
        | [] => [[c]]
        | h :: t => (c :: h) :: t

/-- Chunk splitting on strings: the fragments `split('\n')` produces. -/
def chunkLines (chunk : String) : List String := (splitLines chunk.data).map String.mk

/-- A supervised process (types: `GodotProcess`): the OS handle — modelled by
its pid — plus the captured output and error lines. -/
structure GodotProcess where
  pid : Nat
  output : List String
  errors : List String
deriving Repr, DecidableEq

/-- The observable supervisor state: `ProjectHandler.activeProcess` (the
single slot, an `Option`, hence never more than one process) plus the set of
pids that have received `kill()` — the source calls `process.kill()` without
clearing the slot, so the two are tracked separately. -/
structure SupervisorState where
  activeProcess : Option GodotProcess
  killed : List Nat
deriving Repr, DecidableEq

/-- Stdout `data` event of the supervised process: split the chunk on newlines
and append all fragments (`output.push(...lines)`). -/
def onStdoutData (g : GodotProcess) (chunk : String) : GodotProcess :=
  { g with output := g.output ++ chunkLines chunk }

/-- Stderr `data` event of the supervised process: split the chunk on newlines
and append all fragments (`errors.push(...lines)`). -/
def onStderrData (g : GodotProcess) (chunk : String) : GodotProcess :=
  { g with errors := g.errors ++ chunkLines chunk }

/-- Asynchronous events that mutate the active-process slot during a
supervised run: the `spawn` event of the new process (which registers it) and
the `exit` event of a process (which clears the slot only when the slot still
holds that very process — the `=== process` guard in the source). -/
inductive SupEvent where
  | spawned (g : GodotProcess)
  | exited (pid : Nat)
deriving Repr, DecidableEq

/-- Effect of one asynchronous event on the supervisor state, following the
`spawn` and `exit` listeners installed by `handleRunProject`. -/
def applyEvent (s : SupervisorState) : SupEvent → SupervisorState
  | .spawned g => { s with activeProcess := some g }
  | .exited p =>
      match s.activeProcess with
      | some g => if g.pid = p then { s with activeProcess := none } else s
      | none => s

/-- The synchronous kill phase at the start of `handleRunProject`: if a
process is active, `kill()` it — the source does not clear the slot here. -/
def runKillPhase (s : SupervisorState) : SupervisorState :=
  match s.activeProcess with
  | some g => { s with killed := g.pid :: s.killed }
  | none => s

/-- The JSON payload of `handleGetDebugOutput`. -/
def debugOutputPayload (output errors : List String) : JsonValue :=
  .obj [("output", .arr (output.map .str)), ("errors", .arr (errors.map .str))]

/-- Embedding of `ProjectHandler.handleGetDebugOutput`: with no active process
an error response, otherwise the pretty-printed JSON of the accumulated
output and error lines. -/
def handleGetDebugOutput (s : SupervisorState) : ToolResponse :=
  match s.activeProcess with
  | none =>
      createErrorResponse "No active Godot process."
        ["Use run_project to start a Godot project first",
         "Check if the Godot process crashed unexpectedly"]
  | some g =>
      { content := [{ text := jsonPretty (debugOutputPayload g.output g.errors) 0 }] }

/-- The JSON payload of `handleStopProject`. -/
def stopProjectPayload (output errors : List String) : JsonValue :=
  .obj [("message", .str "Godot project stopped"),
        ("finalOutput", .arr (output.map .str)),
        ("finalErrors", .arr (errors.map .str))]

/-- Embedding of `ProjectHandler.handleStopProject`: with no active process an
error response; otherwise kill the process, return the accumulated lines, and
clear the slot. -/
def handleStopProject (s : SupervisorState) : SupervisorState × ToolResponse :=
  match s.activeProcess with
  | none =>
      (s, createErrorResponse "No active Godot process to stop."
        ["Use run_project to start a Godot project first",
         "The process may have already terminated"])
  | some g =>
      ({ activeProcess := none, killed := g.pid :: s.killed },
       { content := [{ text := jsonPretty (stopProjectPayload g.output g.errors) 0 }] })

/-- Arguments of the `run_project` tool. -/
structure RunArgs where
  projectPath : Option String
  scene : Option String
deriving Repr, DecidableEq

/-- What a completed `handleRunProject` call produced: the supervisor state,
the single `spawn` call made (`none` when no process was spawned), and the
response. -/
structure RunOutcome where
  state : SupervisorState
  spawned : Option SpawnRecord
  response : ToolResponse
deriving Repr, DecidableEq

/-- The success response of `handleRunProject`. -/
def runStartedResponse : ToolResponse :=
  { content :=
      [{ text := "Godot project started in debug mode. Use get_debug_output to see output." }] }

/-- Embedding of `ProjectHandler.handleRunProject`
(handlers/project-handler.ts).  Effects are explicit parameters: `existsFn`
stands for `existsSync` (with `join` modelled as "/"-concatenation), and
`spawnOk`/`newPid` describe whether the `spawn` event fires for the new
process and under which pid.  Validation throws (`.error`) escape the handler;
the spawn-`error` path rejects the promise with a plain response object, a
non-`Error` value (`Thrown.nonError`).  The successful path models the `spawn`
listener: the new process is registered in the slot.  The `exit` event of the
killed previous process is asynchronous and is modelled by `applyEvent`. -/
def handleRunProject (existsFn : String → Bool) (godotPath : Option String)
    (spawnOk : Bool) (newPid : Nat) (s : SupervisorState) (args : RunArgs) :
    Except Thrown RunOutcome :=
  if strPresent args.projectPath = false then
    .ok ⟨s, none, createErrorResponse "Project path is required"
      ["Provide a valid path to a Godot project directory"]⟩
  else
    let pp := args.projectPath.getD ""
    if validatePath pp = false then
      .error (.err "Invalid project path - contains potentially unsafe characters")
    else if existsFn (pp ++ "/project.godot") = false then
      .error (.err ("Not a valid Godot project: " ++ pp))
    else
      match godotPath with
      | none =>
          .ok ⟨s, none, createErrorResponse "Could not find a valid Godot executable path"
            ["Ensure Godot is installed correctly",
             "Set GODOT_PATH environment variable to specify the correct path"]⟩
      | some gp =>
          let s1 := runKillPhase s
          let cmdArgs := ["-d", "--path", pp] ++
            (match args.scene with
             | some sc => if sc ≠ "" && validatePath sc then [sc] else []
             | none => [])
          if spawnOk then
            .ok ⟨{ s1 with activeProcess := some ⟨newPid, [], []⟩ },
                 some ⟨gp, cmdArgs⟩, runStartedResponse⟩
          else
            .error .nonError

/-- Arguments of the `create_scene` tool. -/
structure CreateSceneArgs where
  projectPath : Option String
  scenePath : Option String
  rootNodeType : Option String
deriving Repr, DecidableEq

/-- Embedding of `SceneHandler.handleCreateScene` (handlers/scene-handler.ts).
`existsFn` stands for `existsSync`; `execOp` is the operation executor seen
from the handler (operation name, parameter bag, project path to a settled
promise).  Validation throws escape the handler; the `catch` block wraps an
executor rejection; a non-zero exit code or non-empty stderr yields an error
response even on exit code 0. -/
def handleCreateScene (existsFn : String → Bool)
    (execOp : String → JsonValue → String → Except Thrown OperationResult)
    (args : CreateSceneArgs) : Except Thrown ToolResponse :=
  if strPresent args.projectPath = false || strPresent args.scenePath = false then
    .ok (createErrorResponse "Project path and scene path are required"
      ["Provide valid paths for both the project and the scene"])
  else
    let pp := args.projectPath.getD ""
    let sp := args.scenePath.getD ""
    if validatePath pp = false then
      .error (.err "Invalid project path - contains potentially unsafe characters")
    else if validatePath sp = false then
      .error (.err "Invalid project path - contains potentially unsafe characters")
    else if existsFn (pp ++ "/project.godot") = false then
      .error (.err ("Not a valid Godot project: " ++ pp))
    else
      let params : JsonValue :=
        .obj [("scenePath", .str sp), ("rootNodeType", .str (orDefault args.rootNodeType "Node2D"))]
      match execOp "create_scene" params pp with
      | .error t =>
          .ok (createErrorResponse ("Failed to create scene: " ++ catchMessage t)
            ["Ensure Godot is installed correctly",
             "Check if the GODOT_PATH environment variable is set correctly",
             "Verify the project path is accessible"])
      | .ok r =>
          if r.exitCode ≠ 0 || r.stderr ≠ "" then
            .ok (createErrorResponse
              ("Failed to create scene: " ++ (if r.stderr ≠ "" then r.stderr else "Unknown error"))
              ["Check if the root node type is valid",
               "Ensure you have write permissions to the scene path",
               "Verify the scene path is valid"])
          else
            .ok { content :=
              [{ text := "Scene created successfully at: " ++ sp ++ "\n\nOutput: " ++ r.stdout }] }

/-- Arguments of the `load_sprite` tool. -/
structure LoadSpriteArgs where
  projectPath : Option String
  scenePath : Option String
  nodePath : Option String
  texturePath : Option String
deriving Repr, DecidableEq

/-- Embedding of `ResourceHandler.handleLoadSprite`
(handlers/resource-handler.ts), with effects as in `handleCreateScene`;
additionally the scene and texture files must exist under the project. -/
def handleLoadSprite (existsFn : String → Bool)
    (execOp : String → JsonValue → String → Except Thrown OperationResult)
    (args : LoadSpriteArgs) : Except Thrown ToolResponse :=
  if strPresent args.projectPath = false || strPresent args.scenePath = false ||
      strPresent args.nodePath = false || strPresent args.texturePath = false then
    .ok (createErrorResponse "Missing required parameters"
      ["Provide projectPath, scenePath, nodePath, and texturePath"])
  else
    let pp := args.projectPath.getD ""
    let sp := args.scenePath.getD ""
    let np := args.nodePath.getD ""
    let tp := args.texturePath.getD ""
    if validatePath pp = false then
      .error (.err "Invalid project path - contains potentially unsafe characters")
    else if validatePath sp = false then
      .error (.err "Invalid project path - contains potentially unsafe characters")
    else if validatePath np = false then
      .error (.err "Invalid project path - contains potentially unsafe characters")
    else if validatePath tp = false then
      .error (.err "Invalid project path - contains potentially unsafe characters")
    else if existsFn (pp ++ "/project.godot") = false then
      .error (.err ("Not a valid Godot project: " ++ pp))
    else if existsFn (pp ++ "/" ++ sp) = false then
      .error (.err ("File does not exist: " ++ pp ++ "/" ++ sp))
    else if existsFn (pp ++ "/" ++ tp) = false then
      .error (.err ("File does not exist: " ++ pp ++ "/" ++ tp))
    else
      let params : JsonValue :=
        .obj [("scenePath", .str sp), ("nodePath", .str np), ("texturePath", .str tp)]
      match execOp "load_sprite" params pp with
      | .error t =>
          .ok (createErrorResponse ("Failed to load sprite: " ++ catchMessage t)
            ["Ensure Godot is installed correctly",
             "Check if the GODOT_PATH environment variable is set correctly",
             "Verify the project path is accessible"])
      | .ok r =>
          if r.exitCode ≠ 0 || r.stderr ≠ "" then
            .ok (createErrorResponse
              ("Failed to load sprite: " ++ (if r.stderr ≠ "" then r.stderr else "Unknown error"))
              ["Check if the node path is correct",
               "Ensure the node is a Sprite2D, Sprite3D, or TextureRect",
               "Verify the texture file is a valid image format"])
          else
            .ok { content :=
              [{ text := "Sprite loaded successfully with texture: " ++ tp ++ "\n\nOutput: " ++ r.stdout }] }

/-- The tool names the `switch` in `setupToolHandlers` (server.ts) routes. -/
def toolNames : List String :=
  ["launch_editor", "get_godot_version", "run_project", "get_debug_output",
   "stop_project", "list_projects", "get_project_info", "create_scene",
   "add_node", "save_scene", "load_sprite", "export_mesh_library", "get_uid",
   "update_project_uids"]

/-- Embedding of the `CallToolRequestSchema` handler installed by
`setupToolHandlers` (server.ts): route the tool name through the `switch`
(an unknown name throws an `McpError` inside the `try`), and catch every
thrown or rejected value, turning it into an error response. `handlers`
abstracts the per-tool handler invocations, each a settled promise. -/
def handleToolCallRequest (handlers : String → Except Thrown ToolResponse)
    (name : String) : Except Thrown ToolResponse :=
  let tryBody : Except Thrown ToolResponse :=
    if name ∈ toolNames then handlers name
    else .error (.err ("Unknown tool: " ++ name))
  match tryBody with
  | .ok r => .ok r
  | .error t =>
      .ok (createErrorResponse ("Tool execution failed: " ++ thrownMessage t)
        ["Check the tool parameters and try again"])

end GodotMcp

namespace GodotMcp

/-- Unfolding of `splitLines` at a newline character. -/
theorem splitLines_cons_newline (rest : List Char) :
    splitLines ('\n' :: rest) = [] :: splitLines rest := by
  simp [splitLines]

/-- Unfolding of `splitLines` at a non-newline character. -/
theorem splitLines_cons_other {c : Char} (hc : c ≠ '\n') (rest : List Char)
    {hd : List Char} {tl : List (List Char)} (hsp : splitLines rest = hd :: tl) :
    splitLines (c :: rest) = (c :: hd) :: tl := by
  simp [splitLines, hc, hsp]

/-- `splitLines` never returns the empty fragment list. -/
theorem splitLines_ne_nil : ∀ l : List Char, splitLines l ≠ [] := by
  intro l
  match l with
  | [] => simp [splitLines]
  | c :: rest =>
      simp only [splitLines]
      split
      · simp
      · split <;> simp

/-- The number of fragments is the newline count plus one. -/
theorem splitLines_length (l : List Char) :
    (splitLines l).length = l.count '\n' + 1 := by
  induction l with
  | nil => simp [splitLines]
  | cons c rest ih =>
      by_cases h : c = '\n'
      · subst h
        simp [splitLines_cons_newline, List.count_cons, ih]
      · cases hsp : splitLines rest with
        | nil => exact absurd hsp (splitLines_ne_nil rest)
        | cons hd tl =>
            rw [hsp] at ih
            rw [splitLines_cons_other h rest hsp]
            simp only [List.length_cons] at ih ⊢
            simp [List.count_cons, h, ih]

/-- A chunk with no newline is one single fragment. -/
theorem splitLines_count_zero {l : List Char} (h : l.count '\n' = 0) :
    splitLines l = [l] := by
  induction l with
  | nil => simp [splitLines]
  | cons c rest ih =>
      have hc : ¬ c = '\n' := by
        intro e
        subst e
        simp [List.count_cons] at h
      have hr : rest.count '\n' = 0 := by
        simpa [List.count_cons, hc] using h
      rw [splitLines_cons_other hc rest (ih hr)]

/-- Only the empty chunk splits into a single empty fragment. -/
theorem splitLines_eq_singleton_nil : ∀ {l : List Char}, splitLines l = [[]] → l = [] := by
  intro l h
  match l with
  | [] => rfl
  | c :: rest =>
      by_cases hc : c = '\n'
      · subst hc
        rw [splitLines_cons_newline] at h
        simp at h
        exact absurd h (splitLines_ne_nil rest)
      · cases hsp : splitLines rest with
        | nil => exact absurd hsp (splitLines_ne_nil rest)
        | cons hd tl =>
            rw [splitLines_cons_other hc rest hsp] at h
            simp at h

/-- A chunk ending in a newline splits with a trailing empty fragment. -/
theorem splitLines_getLast_newline :
    ∀ l : List Char, l.getLast? = some '\n' → (splitLines l).getLast? = some [] := by
  intro l
  induction l with
  | nil => intro h; simp at h
  | cons c rest ih =>
      intro h
      cases rest with
      | nil =>
          simp at h
          subst h
          simp [splitLines]
      | cons d rest' =>
          rw [List.getLast?_cons_cons] at h
          have ihh := ih h
          by_cases hc : c = '\n'
          · subst hc
            cases hsp : splitLines (d :: rest') with
            | nil => exact absurd hsp (splitLines_ne_nil _)
            | cons hd tl =>
                rw [hsp] at ihh
                rw [splitLines_cons_newline, hsp, List.getLast?_cons_cons]
                exact ihh
          · cases hsp : splitLines (d :: rest') with
            | nil => exact absurd hsp (splitLines_ne_nil _)
            | cons hd tl =>
                rw [hsp] at ihh
                cases tl with
                | nil =>
                    simp at ihh
                    subst ihh
                    have := splitLines_eq_singleton_nil hsp
                    simp at this
                | cons t0 ts =>
                    rw [splitLines_cons_other hc _ hsp, List.getLast?_cons_cons]
                    rw [List.getLast?_cons_cons] at ihh
                    exact ihh

/-- `getLast?` commutes with `map`. -/
theorem getLast?_map_helper {α β : Type} (f : α → β) :
    ∀ l : List α, (l.map f).getLast? = l.getLast?.map f := by
  intro l
  induction l with
  | nil => rfl
  | cons a rest ih =>
      cases rest with
      | nil => rfl
      | cons b rest' =>
          simp only [List.map_cons] at ih ⊢
          rw [List.getLast?_cons_cons, List.getLast?_cons_cons]
          exact ih

/-- Claim C7: for every string containing the substring ".." the path validator
returns false; for the empty string it returns false; for every other string
it returns true. -/
theorem validatePath_spec :
    (∀ p : String, "..".data <:+: p.data → validatePath p = false) ∧
    validatePath "" = false ∧
    (∀ p : String, p ≠ "" → ¬ ("..".data <:+: p.data) → validatePath p = true) := by
  refine ⟨fun p h => ?_, by decide, fun p hne hcon => ?_⟩
  · simp [validatePath, h]
  · simp [validatePath, hne, hcon]

/-- Witness for C7 at concrete inputs: "res://scenes/a.tscn" has no ".." and
is accepted; "../secret" contains ".." and is rejected. -/
theorem validatePath_spec_witness :
    validatePath "res://scenes/a.tscn" = true ∧ validatePath "../secret" = false := by
  constructor
  · exact validatePath_spec.2.2 "res://scenes/a.tscn" (by decide) (by decide)
  · exact validatePath_spec.1 "../secret" (by decide)

/-- Claim C1: for every incoming tool call, whatever the routed handler returns or
throws, the dispatch boundary settles with a well-formed `ToolResponse` — no
thrown value escapes the tool-call request handler, and every caught value
yields an error-flagged response with non-empty content. -/
theorem handleToolCallRequest_total (handlers : String → Except Thrown ToolResponse)
    (name : String) :
    ∃ r : ToolResponse, handleToolCallRequest handlers name = .ok r ∧
      ((name ∈ toolNames ∧ handlers name = .ok r) ∨
        (r.isError = true ∧ r.content ≠ [])) := by
  unfold handleToolCallRequest
  by_cases hmem : name ∈ toolNames
  · rw [if_pos hmem]
    cases h : handlers name with
    | ok r => exact ⟨r, rfl, .inl ⟨hmem, rfl⟩⟩
    | error t => exact ⟨_, rfl, .inr ⟨rfl, by simp [createErrorResponse]⟩⟩
  · rw [if_neg hmem]
    exact ⟨_, rfl, .inr ⟨rfl, by simp [createErrorResponse]⟩⟩

/-- Claim C3: with an unresolved executable path, `executeOperation` fails fast with
the configuration error for every operation, parameter bag, working directory
and would-be process behaviour, and no child process is spawned (the spawn
record is `none`); plugged into a handler whose other guards pass, the failure
surfaces to the caller as a configuration-error response. -/
theorem executeOperation_unresolved_path (cfg : ExecutorConfig)
    (hnull : cfg.godotPath = none) (op : String) (params : JsonValue)
    (projectPath : String) (behave : ProcBehavior) :
    executeOperation cfg op params projectPath behave =
      (none, .error (.err "Could not find a valid Godot executable path")) ∧
    (∀ (existsFn : String → Bool) (pp sp : String) (rnt : Option String),
      pp ≠ "" → sp ≠ "" → validatePath pp = true → validatePath sp = true →
      existsFn (pp ++ "/project.godot") = true →
      handleCreateScene existsFn
          (fun o p path => (executeOperation cfg o p path behave).2)
          ⟨some pp, some sp, rnt⟩ =
        .ok (createErrorResponse
          "Failed to create scene: Could not find a valid Godot executable path"
          ["Ensure Godot is installed correctly",
           "Check if the GODOT_PATH environment variable is set correctly",
           "Verify the project path is accessible"])) := by
  constructor
  · simp [executeOperation, hnull]
  · intro existsFn pp sp rnt hpp hsp hvp hvs hdir
    simp [handleCreateScene, strPresent, hpp, hsp, hvp, hvs, hdir,
      executeOperation, hnull, catchMessage]

/-- Witness for C3: a concrete executor with a null Godot path refuses to run
and the create-scene handler surfaces the configuration error. -/
theorem executeOperation_unresolved_path_witness :
    executeOperation ⟨"ops.gd", none, true, false⟩ "create_scene" (.obj [])
        "proj" (.closes "" "" none) =
      (none, .error (.err "Could not find a valid Godot executable path")) ∧
    handleCreateScene (fun _ => true)
        (fun o p path =>
          (executeOperation ⟨"ops.gd", none, true, false⟩ o p path (.closes "" "" none)).2)
        ⟨some "proj", some "scene.tscn", none⟩ =
      .ok (createErrorResponse
        "Failed to create scene: Could not find a valid Godot executable path"
        ["Ensure Godot is installed correctly",
         "Check if the GODOT_PATH environment variable is set correctly",
         "Verify the project path is accessible"]) := by
  have h := executeOperation_unresolved_path ⟨"ops.gd", none, true, false⟩ rfl
    "create_scene" (.obj []) "proj" (.closes "" "" none)
  exact ⟨h.1, h.2 (fun _ => true) "proj" "scene.tscn" none (by decide) (by decide)
    (by decide) (by decide) rfl⟩

/-- Claim C4: with a resolved executable path, the argument vector passed to the
spawned executable is exactly, in order: the headless flag, the
working-directory flag and its value, the script flag and the fixed
operations-script path, the operation name, one single positional argument
holding the JSON-serialized snake-case parameter bag, and a trailing
"--debug-godot" flag exactly when verbose diagnostics are enabled. -/
theorem executeOperation_argument_vector (cfg : ExecutorConfig) (gp : String)
    (hres : cfg.godotPath = some gp) (op : String) (params : JsonValue)
    (projectPath : String) (behave : ProcBehavior) :
    (executeOperation cfg op params projectPath behave).1 =
      some ⟨gp, ["--headless", "--path", projectPath, "--script",
        cfg.operationsScriptPath, op, jsonCompact (convertCamelToSnakeCase params)] ++
        (if cfg.godotDebugMode then ["--debug-godot"] else [])⟩ := by
  simp [executeOperation, hres]

/-- Witness for C4: the concrete argument vector of a create-scene invocation,
with the whole parameter bag serialized into the single JSON positional
argument. -/
theorem executeOperation_argument_vector_witness :
    (executeOperation ⟨"ops.gd", some "godot", true, false⟩ "create_scene"
        (.obj [("scenePath", .str "s.tscn"), ("rootNodeType", .str "Node2D")])
        "proj" (.closes "" "" none)).1 =
      some ⟨"godot", ["--headless", "--path", "proj", "--script", "ops.gd",
        "create_scene",
        "\x7b\"scene_path\":\"s.tscn\",\"root_node_type\":\"Node2D\"\x7d",
        "--debug-godot"]⟩ := by
  have h := executeOperation_argument_vector ⟨"ops.gd", some "godot", true, false⟩
    "godot" rfl "create_scene"
    (.obj [("scenePath", .str "s.tscn"), ("rootNodeType", .str "Node2D")])
    "proj" (.closes "" "" none)
  rw [h]
  rfl

/-- Claim C9: when the child process closes with a null code the returned
`ExecutionResult` carries exit code 0; when it closes with a non-null code the
result carries exactly that code (the `code || 0` normalization maps 0 to 0
and is the identity elsewhere). -/
theorem executeOperation_close_code (cfg : ExecutorConfig) (gp : String)
    (hres : cfg.godotPath = some gp) (op : String) (params : JsonValue)
    (projectPath : String) (out err : String) :
    (executeOperation cfg op params projectPath (.closes out err none)).2 =
      .ok ⟨out, err, 0⟩ ∧
    (∀ code : Int,
      (executeOperation cfg op params projectPath (.closes out err (some code))).2 =
        .ok ⟨out, err, code⟩) := by
  constructor
  · simp [executeOperation, hres, runSpawned, exitCodeOfClose]
  · intro code
    by_cases h : code = 0 <;>
      simp [executeOperation, hres, runSpawned, exitCodeOfClose, h]

/-- Witness for C9: a process closing with null code yields exit code 0, one
closing with code 3 yields exit code 3. -/
theorem executeOperation_close_code_witness :
    (executeOperation ⟨"ops.gd", some "godot", true, false⟩ "get_uid" (.obj [])
        "proj" (.closes "uid://x" "" none)).2 = .ok ⟨"uid://x", "", 0⟩ ∧
    (executeOperation ⟨"ops.gd", some "godot", true, false⟩ "get_uid" (.obj [])
        "proj" (.closes "" "boom" (some 3))).2 = .ok ⟨"", "boom", 3⟩ := by
  have h := executeOperation_close_code ⟨"ops.gd", some "godot", true, false⟩
    "godot" rfl "get_uid" (.obj []) "proj" "uid://x" ""
  have h2 := executeOperation_close_code ⟨"ops.gd", some "godot", true, false⟩
    "godot" rfl "get_uid" (.obj []) "proj" "" "boom"
  exact ⟨h.1, h2.2 3⟩

/-- Claim C2: for a discrete operation whose execution result has non-empty stderr,
the handler produces an error-flagged response even when the exit code is 0;
a success (non-error) response is produced only when the exit code is 0 and
stderr is empty — shown for the create-scene and load-sprite handlers. -/
theorem stderr_overrides_zero_exit (existsFn : String → Bool) (r : OperationResult)
    (pp sp np tp : String) (rnt : Option String)
    (hpp : pp ≠ "") (hsp : sp ≠ "") (hnp : np ≠ "") (htp : tp ≠ "")
    (hvp : validatePath pp = true) (hvs : validatePath sp = true)
    (hvn : validatePath np = true) (hvt : validatePath tp = true)
    (hdir : existsFn (pp ++ "/project.godot") = true)
    (hfs : existsFn (pp ++ "/" ++ sp) = true)
    (hft : existsFn (pp ++ "/" ++ tp) = true) :
    ((r.stderr ≠ "" ∨ r.exitCode ≠ 0) →
      (handleCreateScene existsFn (fun _ _ _ => .ok r)
          ⟨some pp, some sp, rnt⟩).map ToolResponse.isError = .ok true ∧
      (handleLoadSprite existsFn (fun _ _ _ => .ok r)
          ⟨some pp, some sp, some np, some tp⟩).map ToolResponse.isError = .ok true) ∧
    (∀ resp, handleCreateScene existsFn (fun _ _ _ => .ok r) ⟨some pp, some sp, rnt⟩ =
        .ok resp → resp.isError = false → r.exitCode = 0 ∧ r.stderr = "") ∧
    (∀ resp, handleLoadSprite existsFn (fun _ _ _ => .ok r)
        ⟨some pp, some sp, some np, some tp⟩ = .ok resp → resp.isError = false →
      r.exitCode = 0 ∧ r.stderr = "") := by
  refine ⟨fun hbad => ?_, fun resp hresp herr => ?_, fun resp hresp herr => ?_⟩
  · rcases hbad with h | h
    · constructor
      · simp [handleCreateScene, strPresent, hpp, hsp, hvp, hvs, hdir, h,
          createErrorResponse, Except.map]
      · simp [handleLoadSprite, strPresent, hpp, hsp, hnp, htp, hvp, hvs, hvn,
          hvt, hdir, hfs, hft, h, createErrorResponse, Except.map]
    · constructor
      · simp [handleCreateScene, strPresent, hpp, hsp, hvp, hvs, hdir, h,
          createErrorResponse, Except.map]
      · simp [handleLoadSprite, strPresent, hpp, hsp, hnp, htp, hvp, hvs, hvn,
          hvt, hdir, hfs, hft, h, createErrorResponse, Except.map]
  · by_cases h0 : r.exitCode = 0 <;> by_cases h2 : r.stderr = ""
    · exact ⟨h0, h2⟩
    all_goals
      simp [handleCreateScene, strPresent, hpp, hsp, hvp, hvs, hdir, h0, h2] at hresp
      subst hresp
      simp [createErrorResponse] at herr
  · by_cases h0 : r.exitCode = 0 <;> by_cases h2 : r.stderr = ""
    · exact ⟨h0, h2⟩
    all_goals
      simp [handleLoadSprite, strPresent, hpp, hsp, hnp, htp, hvp, hvs, hvn, hvt,
        hdir, hfs, hft, h0, h2] at hresp
      subst hresp
      simp [createErrorResponse] at herr

/-- Witness for C2: a stub executable writing "warning" to stderr and exiting
0 still produces an error-flagged response from the create-scene handler. -/
theorem stderr_overrides_zero_exit_witness :
    (handleCreateScene (fun _ => true) (fun _ _ _ => .ok ⟨"out", "warning", 0⟩)
        ⟨some "proj", some "s.tscn", none⟩).map ToolResponse.isError = .ok true := by
  have h := stderr_overrides_zero_exit (fun _ => true) ⟨"out", "warning", 0⟩
    "proj" "s.tscn" "n" "t.png" none (by decide) (by decide) (by decide) (by decide)
    (by decide) (by decide) (by decide) (by decide) rfl rfl rfl
  exact (h.1 (by simp)).1

/-- Claim C5: starting a supervised run while a process is already active kills the
existing process during the synchronous phase, before the new process is
registered, and after the asynchronous `spawn`/`exit` events settle — in
either order — exactly the new process occupies the single active slot. -/
theorem run_while_active_single_slot (s : SupervisorState) (old g : GodotProcess)
    (hact : s.activeProcess = some old) (hne : g.pid ≠ old.pid) :
    old.pid ∈ (runKillPhase s).killed ∧
    (([SupEvent.spawned g, SupEvent.exited old.pid].foldl applyEvent
        (runKillPhase s)).activeProcess = some g) ∧
    (([SupEvent.exited old.pid, SupEvent.spawned g].foldl applyEvent
        (runKillPhase s)).activeProcess = some g) := by
  refine ⟨?_, ?_, ?_⟩
  · simp [runKillPhase, hact]
  · simp [runKillPhase, hact, applyEvent, hne]
  · simp [runKillPhase, hact, applyEvent, hne]

/-- Witness for C5: with process 1 active, starting a run that spawns process
2 leaves exactly process 2 active under both event orders, and process 1 was
killed. -/
theorem run_while_active_single_slot_witness :
    (1 : Nat) ∈ (runKillPhase ⟨some ⟨1, [], []⟩, []⟩).killed ∧
    (([SupEvent.spawned ⟨2, [], []⟩, SupEvent.exited 1].foldl applyEvent
        (runKillPhase ⟨some ⟨1, [], []⟩, []⟩)).activeProcess = some ⟨2, [], []⟩) := by
  have h := run_while_active_single_slot ⟨some ⟨1, [], []⟩, []⟩ ⟨1, [], []⟩
    ⟨2, [], []⟩ rfl (by decide)
  exact ⟨h.1, h.2.1⟩

/-- Claim C6: stopping an active supervised process returns exactly the accumulated
output and error lines (as the pretty-printed stop payload built from those
very lists), clears the active slot, and a subsequent debug-output query
reports that no process is active. -/
theorem stop_project_returns_lines_and_clears (s : SupervisorState)
    (g : GodotProcess) (hact : s.activeProcess = some g) :
    (handleStopProject s).2 =
      { content := [{ text := jsonPretty (stopProjectPayload g.output g.errors) 0 }],
        isError := false } ∧
    (handleStopProject s).1.activeProcess = none ∧
    handleGetDebugOutput (handleStopProject s).1 =
      createErrorResponse "No active Godot process."
        ["Use run_project to start a Godot project first",
         "Check if the Godot process crashed unexpectedly"] := by
  refine ⟨?_, ?_, ?_⟩ <;> simp [handleStopProject, hact, handleGetDebugOutput]

/-- Witness for C6: stopping a process that accumulated lines ["a", ""] and
["e"] returns exactly those lists in the payload and clears the slot. -/
theorem stop_project_returns_lines_and_clears_witness :
    (handleStopProject ⟨some ⟨1, ["a", ""], ["e"]⟩, []⟩).2 =
      { content := [{ text := jsonPretty (stopProjectPayload ["a", ""] ["e"]) 0 }],
        isError := false } ∧
    (handleStopProject ⟨some ⟨1, ["a", ""], ["e"]⟩, []⟩).1.activeProcess = none := by
  have h := stop_project_returns_lines_and_clears ⟨some ⟨1, ["a", ""], ["e"]⟩, []⟩
    ⟨1, ["a", ""], ["e"]⟩ rfl
  exact ⟨h.1, h.2.1⟩

/-- Claim C10: every stdout/stderr data chunk is split on the newline character and
all fragments are appended to the captured line list — fragments per chunk =
newline count + 1, a chunk ending in a newline appends a trailing empty line,
a chunk without a newline is recorded as one single entry (so a logical line
spanning two chunks becomes two separate entries), and the accumulated lists
are exactly what the debug-output query serializes. -/
theorem chunk_splitting_spec (g : GodotProcess) (chunk c1 c2 : String)
    (s : SupervisorState) :
    (onStdoutData g chunk).output = g.output ++ chunkLines chunk ∧
    (onStderrData g chunk).errors = g.errors ++ chunkLines chunk ∧
    (chunkLines chunk).length = chunk.data.count '\n' + 1 ∧
    (chunk.data.getLast? = some '\n' → (chunkLines chunk).getLast? = some "") ∧
    (c1.data.count '\n' = 0 →
      (onStdoutData (onStdoutData g c1) c2).output =
        g.output ++ [c1] ++ chunkLines c2) ∧
    (∀ g', s.activeProcess = some g' →
      handleGetDebugOutput s =
        { content := [{ text := jsonPretty (debugOutputPayload g'.output g'.errors) 0 }],
          isError := false }) := by
  refine ⟨rfl, rfl, ?_, ?_, ?_, ?_⟩
  · simp [chunkLines, splitLines_length]
  · intro h
    simp [chunkLines, getLast?_map_helper, splitLines_getLast_newline _ h]
  · intro h
    simp [onStdoutData, chunkLines, splitLines_count_zero h]
  · intro g' hact
    simp [handleGetDebugOutput, hact]

/-- Witness for C10: the chunks "ab" then "cd\n" (one logical line "abcd"
split across the two chunks, the second ending in a newline) are recorded as
the three entries "ab", "cd" and "". -/
theorem chunk_splitting_spec_witness :
    (onStdoutData (onStdoutData ⟨5, [], []⟩ "ab") "cd\n").output = ["ab", "cd", ""] := by
  have h := (chunk_splitting_spec ⟨5, [], []⟩ "cd\n" "ab" "cd\n"
    ⟨none, []⟩).2.2.2.2.1 (by decide)
  rw [h]
  rfl

/-- Claim C8 counterexample: the optional scene argument "../evil.tscn" fails the
path check, yet the run handler neither throws a validation error nor returns
an error-flagged response — the scene is silently omitted from the command
line and the run proceeds, refuting the claim that a failed check on the
scene argument surfaces as a client-facing validation error. -/
theorem run_scene_silently_dropped :
    validatePath "../evil.tscn" = false ∧
    handleRunProject (fun _ => true) (some "godot") true 7 ⟨none, []⟩
        ⟨some "proj", some "../evil.tscn"⟩ =
      .ok ⟨⟨some ⟨7, [], []⟩, []⟩, some ⟨"godot", ["-d", "--path", "proj"]⟩,
        runStartedResponse⟩ ∧
    runStartedResponse.isError = false := by
  refine ⟨by decide, ?_, rfl⟩
  rfl

/-- Claim C8 amended: every path-shaped parameter is checked by the validator
before being interpolated; for required path parameters a failed check throws
a validation error that the dispatch boundary translates into a client-facing
error response, and for the create-scene handler the outcome is then
independent of the executor (nothing is interpolated or spawned); the
optional scene argument of the run operation is checked but, on failure,
silently omitted from the command line while the run proceeds. -/
theorem path_checks_amended :
    (∀ (existsFn : String → Bool) (gpath : Option String) (spawnOk : Bool)
        (newPid : Nat) (s : SupervisorState) (pp : String) (sc : Option String),
      pp ≠ "" → validatePath pp = false →
      handleRunProject existsFn gpath spawnOk newPid s ⟨some pp, sc⟩ =
        .error (.err "Invalid project path - contains potentially unsafe characters") ∧
      handleToolCallRequest
          (fun _ => (handleRunProject existsFn gpath spawnOk newPid s
            ⟨some pp, sc⟩).map RunOutcome.response)
          "run_project" =
        .ok (createErrorResponse
          "Tool execution failed: Invalid project path - contains potentially unsafe characters"
          ["Check the tool parameters and try again"])) ∧
    (∀ (existsFn : String → Bool) (gpath : Option String) (spawnOk : Bool)
        (newPid : Nat) (s : SupervisorState) (pp sc : String) (o : RunOutcome)
        (rec : SpawnRecord),
      validatePath sc = false →
      handleRunProject existsFn gpath spawnOk newPid s ⟨some pp, some sc⟩ = .ok o →
      o.spawned = some rec → rec.args = ["-d", "--path", pp]) ∧
    (∀ (existsFn : String → Bool) (args : CreateSceneArgs)
        (e₁ e₂ : String → JsonValue → String → Except Thrown OperationResult),
      (validatePath (args.projectPath.getD "") = false ∨
        validatePath (args.scenePath.getD "") = false) →
      handleCreateScene existsFn e₁ args = handleCreateScene existsFn e₂ args) := by
  refine ⟨?_, ?_, ?_⟩
  · intro existsFn gpath spawnOk newPid s pp sc hne hval
    have h1 : handleRunProject existsFn gpath spawnOk newPid s ⟨some pp, sc⟩ =
        .error (.err "Invalid project path - contains potentially unsafe characters") := by
      simp [handleRunProject, strPresent, hne, hval]
    have h2 : (handleRunProject existsFn gpath spawnOk newPid s ⟨some pp, sc⟩).map
        RunOutcome.response =
        .error (.err "Invalid project path - contains potentially unsafe characters") := by
      rw [h1]
      rfl
    refine ⟨h1, ?_⟩
    simp only [handleToolCallRequest, h2]
    rw [if_pos (by decide : "run_project" ∈ toolNames)]
    rfl
  · intro existsFn gpath spawnOk newPid s pp sc o rec hval hok hrec
    simp only [handleRunProject] at hok
    split at hok
    · injection hok with h
      subst h
      simp at hrec
    · split at hok
      · simp at hok
      · split at hok
        · simp at hok
        · split at hok
          · injection hok with h
            subst h
            simp at hrec
          · split at hok
            · injection hok with h
              subst h
              simp at hrec
              rw [← hrec]
              simp [hval]
            · simp at hok
  · intro existsFn args e₁ e₂ hbad
    simp only [handleCreateScene]
    split
    · rfl
    · split
      · rfl
      · split
        · rfl
        · exfalso
          next hvp hvs =>
            rcases hbad with h | h
            · exact hvp h
            · exact hvs h

/-- Witness for C8 amended: an unsafe required project path throws and is
translated at the boundary; an unsafe optional scene is dropped from the
command line; an unsafe scene path makes the create-scene outcome independent
of the executor. -/
theorem path_checks_amended_witness :
    handleRunProject (fun _ => true) (some "godot") true 3 ⟨none, []⟩
        ⟨some "../p", none⟩ =
      .error (.err "Invalid project path - contains potentially unsafe characters") ∧
    (⟨"godot", ["-d", "--path", "proj"]⟩ : SpawnRecord).args = ["-d", "--path", "proj"] ∧
    handleCreateScene (fun _ => true) (fun _ _ _ => .ok ⟨"a", "", 0⟩)
        ⟨some "proj", some "../s.tscn", none⟩ =
      handleCreateScene (fun _ => true) (fun _ _ _ => .error .nonError)
        ⟨some "proj", some "../s.tscn", none⟩ := by
  refine ⟨?_, ?_, ?_⟩
  · exact (path_checks_amended.1 (fun _ => true) (some "godot") true 3 ⟨none, []⟩
      "../p" none (by decide) (by decide)).1
  · exact path_checks_amended.2.1 (fun _ => true) (some "godot") true 7 ⟨none, []⟩
      "proj" "../evil2.tscn" ⟨⟨some ⟨7, [], []⟩, []⟩,
        some ⟨"godot", ["-d", "--path", "proj"]⟩, runStartedResponse⟩
      ⟨"godot", ["-d", "--path", "proj"]⟩ (by decide) rfl rfl
  · exact path_checks_amended.2.2 (fun _ => true) ⟨some "proj", some "../s.tscn", none⟩
      (fun _ _ _ => .ok ⟨"a", "", 0⟩) (fun _ _ _ => .error .nonError)
      (Or.inr (by decide))

end GodotMcp
